import Mathlib

/-!
Shallow embedding of `src/debuggee/rust/src/main.rs` (crate `rust_debuggee`).

The program is a command dispatcher: it reads the first command-line
argument (`env::args().nth(1)`) and runs one of six canned behaviors.
We model an invocation as a pure function from the argument vector
(`argv`, index 0 being the program name, as in `env::args()`) and an
oracle for the OS-dependent results used by the `spawn` branch, to an
`Outcome`: either a finite trace of observable events together with a
termination result, or an infinite loop described by its per-iteration
event trace.
-/

namespace Debuggee

/-- Observable side effects performed by the program, in order. -/
inductive Event where
  /-- a full line written to standard output (`println!`) -/
  | outLine (s : String)
  /-- a full line written to standard error (`eprintln!`) -/
  | errLine (s : String)
  /-- raw text written to standard output without a newline (`print!`) -/
  | outRaw (s : String)
  /-- flushing standard output (`stdout().flush()`) -/
  | flushStdout
  /-- blocking the thread for `n` seconds (`thread::sleep`) -/
  | sleepSecs (n : Nat)
  /-- spawning a child process running executable `exe` with arguments `args` -/
  | spawnChild (exe : String) (args : List String)
  /-- blocking wait for the spawned child to exit (`child.wait()`) -/
  | waitChild
  /-- a call to a named library function from the default branch -/
  | callFn (s : String)
  deriving DecidableEq, Repr

/-- How a terminating invocation ends. -/
inductive TermResult where
  /-- `main` returns normally; the process exits with status 0 -/
  | completed
  /-- explicit `process::exit(code)` -/
  | exited (code : Int)
  /-- a Rust panic with the given message (abnormal termination) -/
  | panicked (msg : String)
  deriving DecidableEq, Repr

/-- The overall behavior of one invocation. -/
inductive Outcome where
  /-- the process terminates after emitting `events`, ending as `res` -/
  | term (events : List Event) (res : TermResult)
  /-- the process never terminates; `iter n` is the event trace of loop iteration `n` -/
  | loops (iter : Nat → List Event)

/-- Oracle for the OS-dependent values consumed by the `spawn` branch:
`none` models the corresponding OS call returning an error (which the
code immediately `unwrap`s, i.e. panics on). -/
structure SpawnEnv where
  /-- result of `std::env::current_exe()` -/
  currentExe : Option String
  /-- result of `command.spawn()`: the child's process id on success -/
  spawnPid : Option Nat
  /-- result of `child.wait()`: the child's exit status on success -/
  waitStatus : Option Nat

/-- Modelled from the spec: the bodies of `primitives`, `enums`, `structs`,
`arrays`, `boxes`, `strings`, `maps`, `misc` and `step_in` live in the
`rust_debuggee` library crate, which is not among the provided sources.
Per the spec they are value-construction exercises with no algorithmic
content and no observable effects beyond giving a debugger something to
step through, so each is modelled as an opaque named call event.  The
call sequence itself is taken from `main.rs`. -/
def defaultCalls : List String :=
  ["primitives", "enums", "structs", "arrays", "boxes",
   "strings", "maps", "misc", "step_in"]

/-- Two's-complement wraparound into the `i64` range
`[-2^63, 2^63)`, the release-profile semantics of Rust integer
overflow.  (A debug-profile build would instead panic at the point
where this function first differs from the identity.) -/
def wrapI64 (z : Int) : Int :=
  (z + 2 ^ 63) % 2 ^ 64 - 2 ^ 63

/-- The counter value printed at iteration `n` of the `inf_loop`
branch: the source declares `let mut i: i64 = 0;` and performs
`i += 1` at the end of each iteration, so the counter is a 64-bit
signed integer that wraps on overflow (release profile; a debug build
would panic at the overflowing increment instead). -/
def infLoopCounter : Nat → Int
  | 0 => 0
  | n + 1 => wrapI64 (infLoopCounter n + 1)

/-- The events of iteration `n` of the `inf_loop` branch: print
`"\r{i} "` (carriage return keeps rewriting the same output line),
flush stdout, sleep one second. -/
def infLoopIter (n : Nat) : List Event :=
  [Event.outRaw ("\r" ++ toString (infLoopCounter n) ++ " "),
   Event.flushStdout,
   Event.sleepSecs 1]

/-- The `spawn` branch: obtain the current executable path (`unwrap`),
spawn it with argument `"sleep"` (`unwrap`), print `pid = {id}`, then
block on `child.wait()` (`unwrap`). -/
def spawnBranch (env : SpawnEnv) : List Event × TermResult :=
  match env.currentExe with
  | none => ([], TermResult.panicked "current_exe failed")
  | some exe =>
    match env.spawnPid with
    | none => ([], TermResult.panicked "spawn failed")
    | some pid =>
      match env.waitStatus with
      | none =>
        ([Event.spawnChild exe ["sleep"],
          Event.outLine ("pid = " ++ toString pid),
          Event.waitChild],
         TermResult.panicked "wait failed")
      | some _ =>
        ([Event.spawnChild exe ["sleep"],
          Event.outLine ("pid = " ++ toString pid),
          Event.waitChild],
         TermResult.completed)

/-- Dispatch on the testcase identifier (`match testcase.as_deref()`). -/
def runBranch (testcase : Option String) (env : SpawnEnv) : Outcome :=
  match testcase with
  | some "stdio" =>
      Outcome.term [Event.outLine "stdout", Event.errLine "stderr"]
        TermResult.completed
  | some "panic" =>
      Outcome.term [] (TermResult.panicked "Oops!!!")
  | some "spawn" =>
      Outcome.term (spawnBranch env).1 (spawnBranch env).2
  | some "sleep" =>
      Outcome.term [Event.sleepSecs 10] TermResult.completed
  | some "inf_loop" =>
      Outcome.loops infLoopIter
  | some _ =>
      Outcome.term (defaultCalls.map Event.callFn) TermResult.completed
  | none =>
      Outcome.term [Event.outLine "No testcase was specified."]
        (TermResult.exited (-1))

/-- The whole program: `let testcase = env::args().nth(1);` followed by
the dispatch.  `argv` is the full argument vector including the program
name at index 0, so `argv.get? 1` is the first positional argument. -/
def mainRun (argv : List String) (env : SpawnEnv) : Outcome :=
  runBranch (argv.get? 1) env

/-- Number of child processes spawned in an event trace. -/
def countSpawns (evs : List Event) : Nat :=
  (evs.filter fun e =>
    match e with
    | Event.spawnChild _ _ => true
    | _ => false).length

/-- Number of full lines written to standard output in an event trace. -/
def countOutLines (evs : List Event) : Nat :=
  (evs.filter fun e =>
    match e with
    | Event.outLine _ => true
    | _ => false).length

/-- Number of full lines written to standard error in an event trace. -/
def countErrLines (evs : List Event) : Nat :=
  (evs.filter fun e =>
    match e with
    | Event.errLine _ => true
    | _ => false).length

end Debuggee

namespace Debuggee

/-- C1: with no first positional argument, the program prints the
diagnostic `No testcase was specified.` as its only effect and exits via
`process::exit(-1)`. -/
theorem no_argument_prints_diagnostic_and_exits_neg_one
    (argv : List String) (env : SpawnEnv) (h : argv.get? 1 = none) :
    mainRun argv env =
      Outcome.term [Event.outLine "No testcase was specified."]
        (TermResult.exited (-1)) := by
  unfold mainRun
  rw [h]
  rfl

/-- Witness for C1 at a concrete invocation with only the program name. -/
theorem no_argument_prints_diagnostic_and_exits_neg_one_witness :
    mainRun ["debuggee"] ⟨some "exe", some 42, some 0⟩ =
      Outcome.term [Event.outLine "No testcase was specified."]
        (TermResult.exited (-1)) :=
  no_argument_prints_diagnostic_and_exits_neg_one
    ["debuggee"] ⟨some "exe", some 42, some 0⟩ rfl

/-- C2: with argument `spawn` and all OS calls succeeding, the program
spawns exactly one child — its own executable with argument `sleep` —
prints one stdout line that contains the child's numeric process id,
then performs the blocking wait as its last action before completing,
so the parent finishes only after the child has exited. -/
theorem spawn_reexecutes_self_prints_pid_and_waits
    (argv : List String) (exe : String) (pid status : Nat)
    (h : argv.get? 1 = some "spawn") :
    mainRun argv ⟨some exe, some pid, some status⟩ =
      Outcome.term
        [Event.spawnChild exe ["sleep"],
         Event.outLine ("pid = " ++ toString pid),
         Event.waitChild]
        TermResult.completed ∧
    countSpawns
        [Event.spawnChild exe ["sleep"],
         Event.outLine ("pid = " ++ toString pid),
         Event.waitChild] = 1 ∧
    ∃ pre, "pid = " ++ toString pid = pre ++ toString pid := by
  refine ⟨?_, ?_, "pid = ", rfl⟩
  · unfold mainRun
    rw [h]
    rfl
  · rfl

/-- Witness for C2 at a concrete invocation and spawn environment. -/
theorem spawn_reexecutes_self_prints_pid_and_waits_witness :
    mainRun ["debuggee", "spawn"] ⟨some "debuggee", some 42, some 0⟩ =
      Outcome.term
        [Event.spawnChild "debuggee" ["sleep"],
         Event.outLine ("pid = " ++ toString 42),
         Event.waitChild]
        TermResult.completed ∧
    countSpawns
        [Event.spawnChild "debuggee" ["sleep"],
         Event.outLine ("pid = " ++ toString 42),
         Event.waitChild] = 1 ∧
    ∃ pre, "pid = " ++ toString 42 = pre ++ toString 42 :=
  spawn_reexecutes_self_prints_pid_and_waits
    ["debuggee", "spawn"] "debuggee" 42 0 rfl

/-- During the first 2^63 iterations the `i64` counter has not yet
overflowed and equals the iteration index. -/
theorem infLoopCounter_eq_of_lt (n : Nat) (h : n < 2 ^ 63) :
    infLoopCounter n = (n : Int) := by
  induction n with
  | zero => rfl
  | succ k ih =>
    have hk : k < 2 ^ 63 := Nat.lt_of_succ_lt h
    have hstep : infLoopCounter (k + 1) =
        wrapI64 (infLoopCounter k + 1) := rfl
    rw [hstep, ih hk]
    unfold wrapI64
    have hb : (k : Int) + 1 < 2 ^ 63 := by exact_mod_cast h
    have e63 : (2 : Int) ^ 63 = 9223372036854775808 := by norm_num
    have e64 : (2 : Int) ^ 64 = 18446744073709551616 := by norm_num
    rw [e63, e64]
    rw [e63] at hb
    push_cast
    omega

/-- At iteration 2^63 the increment overflows the `i64` and the
counter wraps around to the minimum value `-2^63`. -/
theorem infLoopCounter_wraps :
    infLoopCounter (2 ^ 63) = -(2 ^ 63) := by
  have h2 : (2 : Nat) ^ 63 = (2 ^ 63 - 1) + 1 := by norm_num
  rw [h2]
  have hstep : infLoopCounter ((2 ^ 63 - 1) + 1) =
      wrapI64 (infLoopCounter (2 ^ 63 - 1) + 1) := rfl
  rw [hstep, infLoopCounter_eq_of_lt (2 ^ 63 - 1) (by norm_num)]
  unfold wrapI64
  have e1 : ((2 ^ 63 - 1 : Nat) : Int) = 9223372036854775807 := by
    norm_num
  rw [e1]
  decide

/-- C3 counterexample: with the `i64` counter modelled faithfully, the
emitted counter values are not monotonically increasing over all
iterations: iteration 2^63 - 1 emits 2^63 - 1, but iteration 2^63
emits -2^63 after the increment wraps around, so the value strictly
decreases; the claim's unbounded per-iteration increment and
monotonicity fail at that iteration. -/
theorem inf_loop_unbounded_monotonicity_counterexample :
    mainRun ["debuggee", "inf_loop"] ⟨some "exe", some 42, some 0⟩ =
      Outcome.loops infLoopIter ∧
    infLoopCounter (2 ^ 63 - 1) = 2 ^ 63 - 1 ∧
    infLoopCounter (2 ^ 63) = -(2 ^ 63) ∧
    ¬ infLoopCounter (2 ^ 63 - 1) < infLoopCounter (2 ^ 63) ∧
    infLoopCounter (2 ^ 63) ≠ infLoopCounter (2 ^ 63 - 1) + 1 := by
  have ha : infLoopCounter (2 ^ 63 - 1) = (2 : Int) ^ 63 - 1 := by
    rw [infLoopCounter_eq_of_lt (2 ^ 63 - 1) (by norm_num)]
    norm_num
  refine ⟨rfl, ha, infLoopCounter_wraps, ?_, ?_⟩
  · rw [ha, infLoopCounter_wraps]
    norm_num
  · rw [ha, infLoopCounter_wraps]
    norm_num

/-- C3 (amended): with argument `inf_loop` the program loops forever
(under the wrapping overflow semantics of a release build; a debug
build would instead panic at the overflowing increment), each
iteration printing the `i64` counter to the same output line (the
carriage return in `"\r"` rewrites the line in place), flushing, and
pausing one second; the counter starts at 0 and, throughout every
iteration before the `i64` overflows — the first 2^63 iterations —
it grows by exactly 1 per iteration and is strictly monotone; at
iteration 2^63 it wraps to -2^63. -/
theorem inf_loop_loops_with_wrapping_i64_counter
    (argv : List String) (env : SpawnEnv)
    (h : argv.get? 1 = some "inf_loop") :
    mainRun argv env = Outcome.loops infLoopIter ∧
    (∀ evs res, mainRun argv env ≠ Outcome.term evs res) ∧
    (∀ n, infLoopIter n =
      [Event.outRaw ("\r" ++ toString (infLoopCounter n) ++ " "),
       Event.flushStdout,
       Event.sleepSecs 1]) ∧
    infLoopCounter 0 = 0 ∧
    (∀ n, n + 1 < 2 ^ 63 →
      infLoopCounter (n + 1) = infLoopCounter n + 1) ∧
    (∀ m n, m < n → n < 2 ^ 63 →
      infLoopCounter m < infLoopCounter n) ∧
    infLoopCounter (2 ^ 63) = -(2 ^ 63) := by
  have hloops : mainRun argv env = Outcome.loops infLoopIter := by
    unfold mainRun
    rw [h]
    rfl
  refine ⟨hloops, ?_, fun n => rfl, rfl, ?_, ?_, infLoopCounter_wraps⟩
  · intro evs res hterm
    rw [hloops] at hterm
    exact Outcome.noConfusion hterm
  · intro n hn
    rw [infLoopCounter_eq_of_lt (n + 1) hn,
      infLoopCounter_eq_of_lt n (Nat.lt_of_succ_lt hn)]
    push_cast
    ring
  · intro m n hmn hn
    rw [infLoopCounter_eq_of_lt m (Nat.lt_trans hmn hn),
      infLoopCounter_eq_of_lt n hn]
    exact_mod_cast hmn

/-- Witness for the amended C3 at a concrete invocation. -/
theorem inf_loop_loops_with_wrapping_i64_counter_witness :
    mainRun ["debuggee", "inf_loop"] ⟨some "exe", some 42, some 0⟩ =
      Outcome.loops infLoopIter ∧ infLoopCounter 3 < infLoopCounter 7 :=
  ⟨(inf_loop_loops_with_wrapping_i64_counter
      ["debuggee", "inf_loop"] ⟨some "exe", some 42, some 0⟩ rfl).1,
   (inf_loop_loops_with_wrapping_i64_counter
      ["debuggee", "inf_loop"] ⟨some "exe", some 42, some 0⟩ rfl).2.2.2.2.2.1
      3 7 (by decide) (by decide)⟩

/-- C4: with argument `stdio` the program emits exactly the line
`stdout` on standard output and the line `stderr` on standard error,
nothing else, and completes normally. -/
theorem stdio_one_line_each_stream_then_completes
    (argv : List String) (env : SpawnEnv)
    (h : argv.get? 1 = some "stdio") :
    mainRun argv env =
      Outcome.term [Event.outLine "stdout", Event.errLine "stderr"]
        TermResult.completed ∧
    countOutLines [Event.outLine "stdout", Event.errLine "stderr"] = 1 ∧
    countErrLines [Event.outLine "stdout", Event.errLine "stderr"] = 1 := by
  refine ⟨?_, rfl, rfl⟩
  unfold mainRun
  rw [h]
  rfl

/-- Witness for C4 at a concrete invocation. -/
theorem stdio_one_line_each_stream_then_completes_witness :
    mainRun ["debuggee", "stdio"] ⟨some "exe", some 42, some 0⟩ =
      Outcome.term [Event.outLine "stdout", Event.errLine "stderr"]
        TermResult.completed ∧
    countOutLines [Event.outLine "stdout", Event.errLine "stderr"] = 1 ∧
    countErrLines [Event.outLine "stdout", Event.errLine "stderr"] = 1 :=
  stdio_one_line_each_stream_then_completes
    ["debuggee", "stdio"] ⟨some "exe", some 42, some 0⟩ rfl

/-- C5: with argument `panic` the program terminates abnormally with the
fixed message `Oops!!!` before performing any observable effect; in
particular it never completes normally. -/
theorem panic_terminates_abnormally_with_fixed_message
    (argv : List String) (env : SpawnEnv)
    (h : argv.get? 1 = some "panic") :
    mainRun argv env = Outcome.term [] (TermResult.panicked "Oops!!!") ∧
    (∀ evs, mainRun argv env ≠ Outcome.term evs TermResult.completed) := by
  have hmain : mainRun argv env =
      Outcome.term [] (TermResult.panicked "Oops!!!") := by
    unfold mainRun
    rw [h]
    rfl
  refine ⟨hmain, fun evs hc => ?_⟩
  rw [hmain] at hc
  simp at hc

/-- Witness for C5 at a concrete invocation. -/
theorem panic_terminates_abnormally_with_fixed_message_witness :
    mainRun ["debuggee", "panic"] ⟨some "exe", some 42, some 0⟩ =
      Outcome.term [] (TermResult.panicked "Oops!!!") :=
  (panic_terminates_abnormally_with_fixed_message
    ["debuggee", "panic"] ⟨some "exe", some 42, some 0⟩ rfl).1

/-- C6: with argument `sleep` the program's only observable effect is a
single 10-second (multi-second) blocking sleep, after which it completes
normally. -/
theorem sleep_blocks_ten_seconds_then_completes
    (argv : List String) (env : SpawnEnv)
    (h : argv.get? 1 = some "sleep") :
    mainRun argv env =
      Outcome.term [Event.sleepSecs 10] TermResult.completed ∧
    (2 : Nat) ≤ 10 := by
  refine ⟨?_, by decide⟩
  unfold mainRun
  rw [h]
  rfl

/-- Witness for C6 at a concrete invocation. -/
theorem sleep_blocks_ten_seconds_then_completes_witness :
    mainRun ["debuggee", "sleep"] ⟨some "exe", some 42, some 0⟩ =
      Outcome.term [Event.sleepSecs 10] TermResult.completed ∧
    (2 : Nat) ≤ 10 :=
  sleep_blocks_ten_seconds_then_completes
    ["debuggee", "sleep"] ⟨some "exe", some 42, some 0⟩ rfl

/-- The `spawn` branch never ends in an explicit `process::exit`: its
result is either a panic (a failed `unwrap`) or normal completion. -/
theorem spawnBranch_result_not_exited (env : SpawnEnv) (code : Int) :
    (spawnBranch env).2 ≠ TermResult.exited code := by
  obtain ⟨ce, sp, ws⟩ := env
  cases ce <;> cases sp <;> cases ws <;> simp [spawnBranch]

/-- C7: with any first argument other than the five named identifiers,
the program runs the fixed sequence of value-construction calls —
primitives, enums, structs, arrays, boxes, strings, maps, misc, and
finally the nested `step_in` — in that order, and completes normally. -/
theorem default_branch_runs_fixed_call_sequence
    (argv : List String) (env : SpawnEnv) (s : String)
    (h : argv.get? 1 = some s)
    (hne : s ∉ ["stdio", "panic", "spawn", "sleep", "inf_loop"]) :
    mainRun argv env =
      Outcome.term (defaultCalls.map Event.callFn) TermResult.completed ∧
    defaultCalls =
      ["primitives", "enums", "structs", "arrays", "boxes",
       "strings", "maps", "misc", "step_in"] := by
  refine ⟨?_, rfl⟩
  unfold mainRun
  rw [h]
  unfold runBranch
  split <;> simp_all

/-- Witness for C7 at a concrete unrecognized argument. -/
theorem default_branch_runs_fixed_call_sequence_witness :
    mainRun ["debuggee", "other"] ⟨some "exe", some 42, some 0⟩ =
      Outcome.term (defaultCalls.map Event.callFn) TermResult.completed ∧
    defaultCalls =
      ["primitives", "enums", "structs", "arrays", "boxes",
       "strings", "maps", "misc", "step_in"] :=
  default_branch_runs_fixed_call_sequence
    ["debuggee", "other"] ⟨some "exe", some 42, some 0⟩ "other" rfl
    (by decide)

/-- C8: in the `spawn` branch, if any of the three OS interactions
fails — obtaining the current executable path, spawning the child, or
the blocking wait — the process aborts at once with a panic, having
attempted the spawn at most once (no recovery, no retry). -/
theorem spawn_failures_abort_immediately
    (argv : List String) (env : SpawnEnv)
    (h : argv.get? 1 = some "spawn")
    (hfail : env.currentExe = none ∨ env.spawnPid = none ∨
      env.waitStatus = none) :
    ∃ evs msg,
      mainRun argv env = Outcome.term evs (TermResult.panicked msg) ∧
      countSpawns evs ≤ 1 := by
  obtain ⟨ce, sp, ws⟩ := env
  have hrb : mainRun argv ⟨ce, sp, ws⟩ =
      Outcome.term (spawnBranch ⟨ce, sp, ws⟩).1
        (spawnBranch ⟨ce, sp, ws⟩).2 := by
    unfold mainRun
    rw [h]
    rfl
  cases ce with
  | none =>
      refine ⟨[], "current_exe failed", ?_, Nat.zero_le 1⟩
      rw [hrb]
      rfl
  | some exe =>
      cases sp with
      | none =>
          refine ⟨[], "spawn failed", ?_, Nat.zero_le 1⟩
          rw [hrb]
          rfl
      | some pid =>
          cases ws with
          | none =>
              refine
                ⟨[Event.spawnChild exe ["sleep"],
                  Event.outLine ("pid = " ++ toString pid),
                  Event.waitChild], "wait failed", ?_, Nat.le_refl 1⟩
              rw [hrb]
              rfl
          | some st =>
              rcases hfail with hf | hf | hf <;> simp at hf

/-- Witness for C8 at a concrete invocation with a failing spawn. -/
theorem spawn_failures_abort_immediately_witness :
    ∃ evs msg,
      mainRun ["debuggee", "spawn"] ⟨some "debuggee", none, some 0⟩ =
        Outcome.term evs (TermResult.panicked msg) ∧
      countSpawns evs ≤ 1 :=
  spawn_failures_abort_immediately
    ["debuggee", "spawn"] ⟨some "debuggee", none, some 0⟩ rfl
    (Or.inr (Or.inl rfl))

/-- C9: a present first argument — even the empty string — never takes
the missing-argument path: the empty string dispatches to the default
value-construction branch, and no present argument can make the program
end in `process::exit` (the diagnostic's `exit(-1)` happens only when
the argument is entirely absent). -/
theorem present_argument_avoids_missing_argument_path
    (argv : List String) (env : SpawnEnv) (s : String)
    (h : argv.get? 1 = some s) :
    (s = "" → mainRun argv env =
      Outcome.term (defaultCalls.map Event.callFn) TermResult.completed) ∧
    (∀ evs code,
      mainRun argv env ≠ Outcome.term evs (TermResult.exited code)) := by
  constructor
  · intro hs
    subst hs
    unfold mainRun
    rw [h]
    rfl
  · intro evs code hc
    unfold mainRun at hc
    rw [h] at hc
    unfold runBranch at hc
    split at hc
    all_goals
      first
      | exact Outcome.noConfusion hc
      | (injection hc with h1 h2; exact TermResult.noConfusion h2)
      | (injection hc with h1 h2
         exact spawnBranch_result_not_exited _ _ h2)
      | simp_all

/-- Witness for C9 at a concrete invocation with an empty argument. -/
theorem present_argument_avoids_missing_argument_path_witness :
    mainRun ["debuggee", ""] ⟨some "exe", some 42, some 0⟩ =
      Outcome.term (defaultCalls.map Event.callFn) TermResult.completed :=
  (present_argument_avoids_missing_argument_path
    ["debuggee", ""] ⟨some "exe", some 42, some 0⟩ "" rfl).1 rfl

/-- C10: the dispatch depends only on the first positional argument:
two invocations whose argument vectors agree at index 1 (whatever their
program names or extra trailing arguments) behave identically. -/
theorem dispatch_depends_only_on_first_argument
    (argv argv' : List String) (env : SpawnEnv)
    (h : argv.get? 1 = argv'.get? 1) :
    mainRun argv env = mainRun argv' env := by
  unfold mainRun
  rw [h]

/-- Witness for C10: extra trailing arguments do not change behavior. -/
theorem dispatch_depends_only_on_first_argument_witness :
    mainRun ["debuggee", "stdio", "extra1", "extra2"]
        ⟨some "exe", some 42, some 0⟩ =
      mainRun ["other-name", "stdio"] ⟨some "exe", some 42, some 0⟩ :=
  dispatch_depends_only_on_first_argument
    ["debuggee", "stdio", "extra1", "extra2"] ["other-name", "stdio"]
    ⟨some "exe", some 42, some 0⟩ rfl

end Debuggee
